import Mathlib

/-
Verification of the GTIN library (gtin/__init__.py): a shallow embedding of
the `GTIN` class — construction from the three input modes, the check-digit
computation, the rendered string, the GCP longest-match lookup, the
indicator-digit accessor and the hash — together with theorems settling the
specification claims about it.

Strings are modelled as `List Char`; Python integers produced from digit
strings are modelled as `Nat` (every integer the class stores is passed
through `abs`).
-/

/-- Numeric value of a decimal digit character (Python `int(d)` for a
one-character digit string): the code point minus 48. -/
def charVal (c : Char) : Nat := c.toNat - 48

/-- The decimal digit character for a value below ten (`str(d)` in Python). -/
def digitChar (d : Nat) : Char := Char.ofNat (48 + d)

/-- Decimal-digit test, modelling membership in Python's regex class `\d`
for ASCII input. -/
def isDigitChar (c : Char) : Bool := 48 ≤ c.toNat && c.toNat ≤ 57

/-- Models `re.sub(r'[^\d]', '', s)` from `GTIN.__init__`: discard every
non-digit character. -/
def stripNonDigits (l : List Char) : List Char := l.filter isDigitChar

/-- Models Python `int(s)` on a (non-empty) string of decimal digits. -/
def natOfDigits (l : List Char) : Nat := l.foldl (fun a c => a * 10 + charVal c) 0

/-- Fuelled digit rendering: most-significant first, empty for zero.
Structural on the fuel so that concrete instances reduce in the kernel. -/
def natToCharsAux : Nat → Nat → List Char
  | 0, _ => []
  | fuel + 1, n => if n = 0 then [] else natToCharsAux fuel (n / 10) ++ [digitChar (n % 10)]

/-- Models Python `str(n)` for a non-negative integer: its decimal digits,
no leading zeros, `"0"` for zero. -/
def natToChars (n : Nat) : List Char := if n = 0 then ['0'] else natToCharsAux n n

/-- Sums of the entries at even and at odd positions of a list
(`digits[::2]` and `digits[1::2]` in `GTIN.get_check_digit`). -/
def altSums : List Nat → Nat × Nat
  | [] => (0, 0)
  | d :: r => ((altSums r).2 + d, (altSums r).1)

/-- Models `GTIN.get_check_digit` on a stored raw value `r`: take the digits
of `str(r)` in reverse, triple the sum at even positions, add the sum at odd
positions, and keep the last decimal digit of `10 - (total % 10)` (the code
renders `10 - total % 10`, which lies in `1..10`, and takes the final
character of its decimal string — that is `(10 - total % 10) % 10`). -/
def checkDigitNat (r : Nat) : Nat :=
  let ds := ((natToChars r).map charVal).reverse
  (10 - (3 * (altSums ds).1 + (altSums ds).2) % 10) % 10

/-- The check digit exactly as the specification sentence words it, computed
directly on the supplied digit characters: reverse the digit sequence,
multiply the even-position sum by three, add the odd-position sum, take the
result mod 10, and render `(10 - (sum mod 10)) mod 10`. -/
def specCheckDigit (s : List Char) : Nat :=
  let ds := (s.map charVal).reverse
  (10 - (3 * (altSums ds).1 + (altSums ds).2) % 10) % 10

/-- The spec's check digit rendered as a character. -/
def specCheckDigitChar (s : List Char) : Char := digitChar (specCheckDigit s)

/-- The state a `GTIN` instance carries (`self.data`): the stored raw value
(`None` before initialisation) and the length. -/
structure GTINState where
  raw : Option Nat
  length : Nat
deriving DecidableEq

/-- A Python argument value relevant to `GTIN.__init__`: a string (kept as
its character list) or an integer. -/
inductive Py where
  | s (v : List Char)
  | i (v : Int)
deriving DecidableEq

/-- The exceptions `GTIN.__init__` and `GTIN.get_gcp` can raise.
`checkDigitError` carries what the message interpolates: the local `gtin`
value, the supplied check digit and the correct one. `builtinTypeError` and
`builtinValueError` model Python's built-in `TypeError` (e.g. `len(None)`)
and `ValueError` (e.g. `int('')`), which are not `GTINError` subclasses. -/
inductive PyError where
  | gtinTypeError
  | checkDigitError (shown : Option Py) (supplied : Py) (correct : Char)
  | indicatorDigitError
  | gcpNotFoundError
  | builtinTypeError
  | builtinValueError
deriving DecidableEq

/-- Whether an exception is a `GTINError` subclass. -/
def PyError.isGTINError : PyError → Bool
  | .gtinTypeError => true
  | .checkDigitError _ _ _ => true
  | .indicatorDigitError => true
  | .gcpNotFoundError => true
  | .builtinTypeError => false
  | .builtinValueError => false

/-- Models `GTIN.get_check_digit` as an accessor: `None` when no raw value
is stored, otherwise the check-digit character. -/
def get_check_digit (st : GTINState) : Option Char :=
  st.raw.map (fun r => digitChar (checkDigitNat r))

/-- Models `GTIN.__str__`: all zeros when no raw value is stored, otherwise
`str(raw)` followed by the check digit, left-padded with zeros to the
stored length. -/
def render (st : GTINState) : List Char :=
  match st.raw with
  | none => List.replicate st.length '0'
  | some r =>
    let g := natToChars r ++ [digitChar (checkDigitNat r)]
    List.replicate (st.length - g.length) '0' ++ g

/-- Models `GTIN.__hash__`: `self.raw or 0`. -/
def gtinHash (st : GTINState) : Nat :=
  match st.raw with
  | none => 0
  | some r => r

/-- Models `GTIN.__len__` / the `length` property. -/
def gtinLen (st : GTINState) : Nat := st.length

/-- Models `GTIN.indicator_digit`: the first character of the rendered
string (`str(self)[0]`; `none` models the `IndexError` on an empty string). -/
def indicator_digit (st : GTINState) : Option Char := (render st).head?

/-- Models `int(self)` on a `GTIN` (`GTIN.__int__`): the integer value of
the rendered string. -/
def intOfGTIN (st : GTINState) : Nat := natOfDigits (render st)

deriving instance DecidableEq for Except

/-- Normalisation of a component argument (`indicator_digit`, `gcp`,
`item_reference`) in the component branch of `GTIN.__init__`: strings have
non-digit characters stripped, numbers become `str(abs(int(x)))`. -/
def normComponent : Py → List Char
  | .s v => stripNonDigits v
  | .i v => natToChars v.natAbs

/-- Intermediate result of the branch analysis in `GTIN.__init__`: the raw
integer, the (still optional, pre-default) length, the check-digit value the
final comparison will see, and the local `gtin` value the error message
would interpolate. -/
structure PreState where
  raw : Nat
  length : Option Int
  check : Option Py
  shown : Option Py
deriving DecidableEq

/-- The component branch of `GTIN.__init__` (entered when `gtin` and `raw`
are absent but some component argument is present). Follows the source
order: indicator-digit checks first, then normalisation of `gcp` and
`item_reference`, the combined-length-12 check, zero-padding of a missing
side (`'0' * (12 - len(other))` — `len(None)` when both are missing is a
built-in `TypeError`), and finally `raw = int(indicator + gcp + item_ref)`. -/
def componentInit (length : Option Int) (indicator_digit gcp item_reference check_digit : Option Py) :
    Except PyError PreState :=
  let indRes : Except PyError (List Char) :=
    match indicator_digit with
    | none => .ok ['0']
    | some p =>
      match length with
      | some L =>
        if L = 14 then
          let idg := normComponent p
          if idg.length > 1 then .error .indicatorDigitError else .ok idg
        else .error .indicatorDigitError
      | none =>
        let idg := normComponent p
        if idg.length > 1 then .error .indicatorDigitError else .ok idg
  match indRes with
  | .error e => .error e
  | .ok ind =>
    match gcp.map normComponent, item_reference.map normComponent with
    | some g, some r =>
      if g.length + r.length ≠ 12 then .error .gtinTypeError
      else .ok ⟨natOfDigits (ind ++ g ++ r), length, check_digit, none⟩
    | none, some r => .ok ⟨natOfDigits (ind ++ List.replicate (12 - r.length) '0' ++ r), length, check_digit, none⟩
    | some g, none => .ok ⟨natOfDigits (ind ++ g ++ List.replicate (12 - g.length) '0'), length, check_digit, none⟩
    | none, none => .error .builtinTypeError

/-- The branch analysis of `GTIN.__init__` (lines 222–327 of the source):
`gtin` takes the first branch when present, else `raw`, else the component
branch when any component argument is present, else the all-zero default.
In the `gtin` string branch, `raw = int(gtin[:-1])` / `int(gtin)` raises a
built-in `ValueError` when the sliced string is empty; the numeric branch
(also taken by any object with `__int__`, such as another `GTIN`) takes
`str(abs(int(gtin)))`, keeps its last character as the check digit and
re-parses the rest. -/
def initCore (gtin : Option Py) (length : Option Int) (raw : Option Py)
    (indicator_digit gcp item_reference check_digit : Option Py) :
    Except PyError PreState :=
  match gtin with
  | some (.s v) =>
    let g := stripNonDigits v
    let len1 : Option Int :=
      match length with
      | some L => some L
      | none => some ((g.length : Int) + (match check_digit with | some _ => 1 | none => 0))
    match check_digit with
    | none =>
      match g.reverse with
      | la :: c2 :: front => .ok ⟨natOfDigits (c2 :: front).reverse, len1, some (.s [la]), some (.s g)⟩
      | _ => .error .builtinValueError
    | some cdp =>
      match g with
      | [] => .error .builtinValueError
      | _ => .ok ⟨natOfDigits g, len1, some cdp, some (.s g)⟩
  | some (.i n) =>
    let gs := natToChars n.natAbs
    match gs.reverse with
    | la :: c2 :: front => .ok ⟨natOfDigits (c2 :: front).reverse, length, some (.s [la]), some (.i n)⟩
    | _ => .error .builtinValueError
  | none =>
    match raw with
    | some (.s v) =>
      let g := stripNonDigits v
      let len1 : Option Int := match length with | some L => some L | none => some ((g.length : Int) + 1)
      match g with
      | [] => .error .builtinValueError
      | _ => .ok ⟨natOfDigits g, len1, check_digit, none⟩
    | some (.i n) => .ok ⟨n.natAbs, length, check_digit, none⟩
    | none =>
      match indicator_digit, gcp, item_reference, check_digit with
      | none, none, none, none => .ok ⟨0, length, none, none⟩
      | i, g, r, c => componentInit length i g r c

/-- The tail of `GTIN.__init__`: default the length to 14, store
`abs(int(length))` and the raw value, and when a check digit is present
compare it (Python `!=`, so an `int` never equals the computed one-character
string) against the computed check digit, raising `CheckDigitError` on
mismatch. -/
def initFinish (p : PreState) : Except PyError GTINState :=
  let len : Nat := match p.length with | none => 14 | some L => L.natAbs
  let st : GTINState := ⟨some p.raw, len⟩
  match p.check with
  | none => .ok st
  | some c =>
    let correct := digitChar (checkDigitNat p.raw)
    if c = .s [correct] then .ok st else .error (.checkDigitError p.shown c correct)

/-- Models `GTIN.__init__` end to end. -/
def GTIN.init (gtin : Option Py) (length : Option Int) (raw : Option Py)
    (indicator_digit gcp item_reference check_digit : Option Py) :
    Except PyError GTINState :=
  match initCore gtin length raw indicator_digit gcp item_reference check_digit with
  | .error e => .error e
  | .ok p => initFinish p

/-- Models `GTIN(gtin=x)` where `x` is an existing `GTIN` instance: a `GTIN`
is neither a string nor a `Number`, but it has `__int__`, so the numeric
branch runs on `int(x)` — the integer value of `x`'s rendered string. -/
def GTIN.initFromGTIN (x : GTINState) (length : Option Int) : Except PyError GTINState :=
  GTIN.init (some (.i (intOfGTIN x))) length none none none none none

/-- One step of the `while p:` lookup loop in `GTIN.get_gcp`, recursing on
the reversed candidate so that dropping the last character is structural:
try the candidate as a table key, else drop its last character and retry. -/
def lookupRev (t : List Char → Option Nat) : List Char → Option Nat
  | [] => none
  | c :: rest =>
    match t ((c :: rest).reverse) with
    | some l => some l
    | none => lookupRev t rest

/-- The longest-match lookup of `GTIN.get_gcp`: try the full string, then
ever shorter leading substrings, `none` when the empty string is reached. -/
def lookupGcpLength (t : List Char → Option Nat) (p : List Char) : Option Nat :=
  lookupRev t p.reverse

/-- Zero-pad a rendered string on the left to 14 characters, as
`GTIN.get_gcp` does before slicing. -/
def pad14 (g : List Char) : List Char :=
  if g.length < 14 then List.replicate (14 - g.length) '0' ++ g else g

/-- The slice `g[1:-1]` of the padded rendering: the candidate region
between the indicator digit and the check digit. -/
def prefixRegion (g : List Char) : List Char := (g.drop 1).dropLast

/-- Models `GTIN.get_gcp` against a table `t` (the mapping built from the
GCP prefix format list): pad the rendering to 14 characters, run the
longest-match loop on `g[1:-1]`, and — because the code tests `if l:` — a
resolved length of zero is treated exactly like no match at all and raises
`GCPNotFoundError`; otherwise return `g[1:1+l]`. -/
def get_gcp (t : List Char → Option Nat) (st : GTINState) : Except PyError (List Char) :=
  let g := pad14 (render st)
  match lookupGcpLength t (prefixRegion g) with
  | some l => if 0 < l then .ok ((g.drop 1).take l) else .error .gcpNotFoundError
  | none => .error .gcpNotFoundError

/-! ### Arithmetic facts about the digit encoding -/

theorem charVal_digitChar {d : Nat} (h : d < 10) : charVal (digitChar d) = d := by
  interval_cases d <;> decide

theorem isDigitChar_bounds {c : Char} (h : isDigitChar c = true) :
    48 ≤ c.toNat ∧ c.toNat ≤ 57 := by
  simpa [isDigitChar, Bool.and_eq_true, decide_eq_true_eq] using h

theorem digitChar_charVal {c : Char} (h : isDigitChar c = true) : digitChar (charVal c) = c := by
  obtain ⟨h1, _⟩ := isDigitChar_bounds h
  unfold digitChar charVal
  rw [Nat.add_sub_cancel' h1]
  exact Char.ofNat_toNat c

theorem charVal_lt_ten {c : Char} (h : isDigitChar c = true) : charVal c < 10 := by
  obtain ⟨h1, h2⟩ := isDigitChar_bounds h
  unfold charVal
  omega

theorem charVal_eq_zero_iff {c : Char} (h : isDigitChar c = true) : charVal c = 0 ↔ c = '0' := by
  constructor
  · intro h0
    have := digitChar_charVal h
    rw [h0] at this
    exact this.symm
  · intro h0
    rw [h0]
    rfl

theorem natToCharsAux_zero (fuel : Nat) : natToCharsAux fuel 0 = [] := by
  cases fuel <;> simp [natToCharsAux]

theorem natToCharsAux_eq_digits (fuel : Nat) :
    ∀ n, n ≤ fuel → natToCharsAux fuel n = (Nat.digits 10 n).reverse.map digitChar := by
  induction fuel with
  | zero =>
    intro n h
    interval_cases n
    simp [natToCharsAux]
  | succ fuel ih =>
    intro n h
    match n with
    | 0 => simp [natToCharsAux_zero]
    | m + 1 =>
      rw [natToCharsAux, if_neg (Nat.succ_ne_zero m)]
      have hdiv : (m + 1) / 10 < m + 1 := Nat.div_lt_self (Nat.succ_pos m) (by norm_num)
      rw [ih ((m + 1) / 10) (by omega)]
      rw [Nat.digits_def' (b := 10) (by norm_num) (Nat.succ_pos m)]
      simp

theorem natToChars_eq_digits {n : Nat} (h : n ≠ 0) :
    natToChars n = (Nat.digits 10 n).reverse.map digitChar := by
  unfold natToChars
  rw [if_neg h]
  exact natToCharsAux_eq_digits n n le_rfl

theorem natOfDigits_foldl (l : List Char) :
    ∀ a, l.foldl (fun x c => x * 10 + charVal c) a = a * 10 ^ l.length + natOfDigits l := by
  induction l with
  | nil => intro a; simp [natOfDigits]
  | cons c r ih =>
    intro a
    show r.foldl _ (a * 10 + charVal c) = _
    rw [ih]
    have : natOfDigits (c :: r) = charVal c * 10 ^ r.length + natOfDigits r := by
      show r.foldl _ (0 * 10 + charVal c) = _
      rw [ih]
      ring_nf
    rw [this, List.length_cons, pow_succ]
    ring

theorem natOfDigits_cons (c : Char) (l : List Char) :
    natOfDigits (c :: l) = charVal c * 10 ^ l.length + natOfDigits l := by
  show l.foldl _ (0 * 10 + charVal c) = _
  rw [natOfDigits_foldl]
  ring_nf

theorem natOfDigits_append (l m : List Char) :
    natOfDigits (l ++ m) = natOfDigits l * 10 ^ m.length + natOfDigits m := by
  show (l ++ m).foldl _ 0 = _
  rw [List.foldl_append]
  exact natOfDigits_foldl m (natOfDigits l)

theorem natOfDigits_eq_ofDigits (l : List Char) :
    natOfDigits l = Nat.ofDigits 10 ((l.map charVal).reverse) := by
  induction l with
  | nil => simp [natOfDigits, Nat.ofDigits]
  | cons c r ih =>
    rw [natOfDigits_cons, ih, List.map_cons, List.reverse_cons, Nat.ofDigits_append,
      Nat.ofDigits_singleton]
    simp only [List.length_reverse, List.length_map]
    ring

theorem natOfDigits_replicate_zero (k : Nat) : natOfDigits (List.replicate k '0') = 0 := by
  induction k with
  | zero => rfl
  | succ k ih =>
    rw [List.replicate_succ, natOfDigits_cons, ih]
    simp [charVal]

theorem natOfDigits_zeros_append (k : Nat) (l : List Char) :
    natOfDigits (List.replicate k '0' ++ l) = natOfDigits l := by
  rw [natOfDigits_append, natOfDigits_replicate_zero]
  simp

theorem natOfDigits_natToChars (n : Nat) : natOfDigits (natToChars n) = n := by
  rcases eq_or_ne n 0 with rfl | h
  · rfl
  · rw [natToChars_eq_digits h, natOfDigits_eq_ofDigits, List.map_map]
    have hmap : (Nat.digits 10 n).reverse.map (charVal ∘ digitChar) = (Nat.digits 10 n).reverse := by
      have : ∀ x ∈ (Nat.digits 10 n).reverse, (charVal ∘ digitChar) x = id x := by
        intro x hx
        have hx' : x ∈ Nat.digits 10 n := List.mem_reverse.mp hx
        exact charVal_digitChar (Nat.digits_lt_base (by norm_num) hx')
      rw [List.map_congr_left this, List.map_id]
    rw [hmap, List.reverse_reverse, Nat.ofDigits_digits]

theorem natToChars_natOfDigits {c : Char} {l : List Char}
    (h : ∀ x ∈ c :: l, isDigitChar x = true) (hc : c ≠ '0') :
    natToChars (natOfDigits (c :: l)) = c :: l := by
  have hc0 : charVal c ≠ 0 := by
    intro h0
    exact hc ((charVal_eq_zero_iff (h c (by simp))).mp h0)
  have hne : natOfDigits (c :: l) ≠ 0 := by
    rw [natOfDigits_cons]
    have : 0 < 10 ^ l.length := Nat.pos_pow_of_pos _ (by norm_num)
    have : 1 ≤ charVal c := Nat.one_le_iff_ne_zero.mpr hc0
    nlinarith [Nat.pos_pow_of_pos l.length (show 0 < 10 by norm_num)]
  have hL : ((c :: l).map charVal).reverse = (l.map charVal).reverse ++ [charVal c] := by
    simp
  have hlt : ∀ x ∈ ((c :: l).map charVal).reverse, x < 10 := by
    intro x hx
    rw [List.mem_reverse, List.mem_map] at hx
    obtain ⟨d, hd, rfl⟩ := hx
    exact charVal_lt_ten (h d hd)
  have hlast : ∀ hh : ((c :: l).map charVal).reverse ≠ [],
      (((c :: l).map charVal).reverse).getLast hh ≠ 0 := by
    intro hh
    have := List.getLast_concat (a := charVal c) ((l.map charVal).reverse)
    rw [List.getLast_congr _ _ hL]
    rw [this]
    exact hc0
  rw [natToChars_eq_digits hne, natOfDigits_eq_ofDigits,
    Nat.digits_ofDigits 10 (by norm_num) _ hlt hlast, List.reverse_reverse, List.map_map]
  have : ∀ x ∈ c :: l, (digitChar ∘ charVal) x = id x := by
    intro x hx
    exact digitChar_charVal (h x hx)
  rw [List.map_congr_left this, List.map_id]

theorem natOfDigits_lt (l : List Char) (h : ∀ c ∈ l, isDigitChar c = true) :
    natOfDigits l < 10 ^ l.length := by
  induction l with
  | nil => simp [natOfDigits]
  | cons c r ih =>
    rw [natOfDigits_cons, List.length_cons, pow_succ]
    have h1 : charVal c < 10 := charVal_lt_ten (h c (by simp))
    have h2 := ih (fun x hx => h x (by simp [hx]))
    nlinarith [Nat.pos_pow_of_pos r.length (show 0 < 10 by norm_num)]

theorem natToChars_length_le {l : List Char} (hne : l ≠ []) (h : ∀ c ∈ l, isDigitChar c = true) :
    (natToChars (natOfDigits l)).length ≤ l.length := by
  rcases eq_or_ne (natOfDigits l) 0 with h0 | h0
  · rw [h0]
    cases l with
    | nil => exact absurd rfl hne
    | cons c r => simp [natToChars]
  · rw [natToChars_eq_digits h0]
    simp only [List.length_map, List.length_reverse]
    rw [Nat.digits_len 10 _ (by norm_num) h0]
    have := Nat.log_lt_of_lt_pow h0 (natOfDigits_lt l h)
    omega

theorem pad_natToChars {l : List Char} (hne : l ≠ []) (h : ∀ c ∈ l, isDigitChar c = true) :
    List.replicate (l.length - (natToChars (natOfDigits l)).length) '0' ++
      natToChars (natOfDigits l) = l := by
  induction l with
  | nil => exact absurd rfl hne
  | cons c r ih =>
    by_cases hc : c = '0'
    · subst hc
      rcases eq_or_ne r [] with rfl | hr
      · decide
      · have hr' : ∀ x ∈ r, isDigitChar x = true := fun x hx => h x (by simp [hx])
        have hnod : natOfDigits ('0' :: r) = natOfDigits r := by
          rw [natOfDigits_cons]
          simp [charVal]
        have hlen := natToChars_length_le hr hr'
        rw [hnod, List.length_cons,
          show r.length + 1 - (natToChars (natOfDigits r)).length =
            (r.length - (natToChars (natOfDigits r)).length) + 1 by omega,
          List.replicate_succ, List.cons_append, ih hr hr']
    · rw [natToChars_natOfDigits h hc]
      simp

theorem altSums_append_zero (l : List Nat) : altSums (l ++ [0]) = altSums l := by
  induction l with
  | nil => rfl
  | cons d r ih => simp [altSums, ih]

theorem altSums_append_zeros (k : Nat) : ∀ l : List Nat, altSums (l ++ List.replicate k 0) = altSums l := by
  induction k with
  | zero => intro l; simp
  | succ k ih =>
    intro l
    rw [List.replicate_succ, show l ++ (0 :: List.replicate k 0) = (l ++ [0]) ++ List.replicate k 0 by simp,
      ih (l ++ [0]), altSums_append_zero]

theorem checkDigitNat_eq_spec {l : List Char} (hne : l ≠ []) (h : ∀ c ∈ l, isDigitChar c = true) :
    checkDigitNat (natOfDigits l) = specCheckDigit l := by
  have hpad := pad_natToChars hne h
  unfold checkDigitNat specCheckDigit
  conv_rhs => rw [← hpad]
  rw [List.map_append, List.map_replicate, show charVal '0' = 0 from rfl, List.reverse_append,
    List.reverse_replicate]
  simp only [altSums_append_zeros]

/-! ### Claim theorems -/

/-- Claim C1: for every non-empty string of digits supplied as the `raw`
value, construction succeeds (inferring length as the digit count plus one)
and the `check_digit` accessor returns exactly the digit computed by the
specification's mod-10/3 algorithm, worded on the supplied digit string:
reverse the digits, triple the even-position sum, add the odd-position sum,
and render `(10 - (sum mod 10)) mod 10` as one ASCII digit. -/
theorem claim_C1 (s : List Char) (hne : s ≠ []) (h : ∀ c ∈ s, isDigitChar c = true) :
    GTIN.init none none (some (.s s)) none none none none =
      .ok ⟨some (natOfDigits s), s.length + 1⟩ ∧
    get_check_digit ⟨some (natOfDigits s), s.length + 1⟩ = some (specCheckDigitChar s) := by
  have hstrip : stripNonDigits s = s := List.filter_eq_self.mpr h
  constructor
  · cases s with
    | nil => exact absurd rfl hne
    | cons c r =>
      simp only [GTIN.init, initCore, hstrip]
      simp [initFinish]
      omega
  · unfold get_check_digit
    show some (digitChar (checkDigitNat (natOfDigits s))) = some (specCheckDigitChar s)
    rw [checkDigitNat_eq_spec hne h]
    rfl

/-- Witness for C1 at the spec's two literal scenarios: the check digit of
890123456789 is '0' and of 10101 is '1'. -/
theorem claim_C1_witness :
    get_check_digit ⟨some (natOfDigits "890123456789".toList), 13⟩ = some '0' ∧
    get_check_digit ⟨some (natOfDigits "10101".toList), 6⟩ = some '1' ∧
    GTIN.init none none (some (.s "890123456789".toList)) none none none none =
      .ok ⟨some (natOfDigits "890123456789".toList), 13⟩ := by
  refine ⟨?_, ?_, ?_⟩
  · exact ((claim_C1 "890123456789".toList (by decide) (by decide)).2).trans (by decide)
  · exact ((claim_C1 "10101".toList (by decide) (by decide)).2).trans (by decide)
  · exact (claim_C1 "890123456789".toList (by decide) (by decide)).1

/-- Claim C4: round trip — for every already-normalised digit string of at
least two characters whose last digit is the check digit of the preceding
digits, `GTIN(gtin=s)` succeeds with inferred length `len(s)` and renders
back to exactly `s`. -/
theorem claim_C4 (s : List Char) (hlen : 2 ≤ s.length) (h : ∀ c ∈ s, isDigitChar c = true)
    (hcd : s.getLast? = some (digitChar (checkDigitNat (natOfDigits s.dropLast)))) :
    GTIN.init (some (.s s)) none none none none none none =
      .ok ⟨some (natOfDigits s.dropLast), s.length⟩ ∧
    render ⟨some (natOfDigits s.dropLast), s.length⟩ = s := by
  have hstrip : stripNonDigits s = s := List.filter_eq_self.mpr h
  obtain ⟨la, c2, front, hrev⟩ : ∃ la c2 front, s.reverse = la :: c2 :: front := by
    cases hr : s.reverse with
    | nil =>
      have : s.length = 0 := by simpa using congrArg List.length hr
      omega
    | cons a t =>
      cases t with
      | nil =>
        have : s.length = 1 := by simpa using congrArg List.length hr
        omega
      | cons b u => exact ⟨a, b, u, rfl⟩
  have hs : s = (c2 :: front).reverse ++ [la] := by
    have := congrArg List.reverse hrev
    simpa using this
  have hdl : s.dropLast = (c2 :: front).reverse := by
    rw [hs, List.dropLast_concat]
  have hla : s.getLast? = some la := by
    rw [hs, List.getLast?_concat]
  have hlaval : la = digitChar (checkDigitNat (natOfDigits s.dropLast)) := by
    rw [hla] at hcd
    exact Option.some.inj hcd
  have hdlne : s.dropLast ≠ [] := by
    rw [hdl]
    simp
  have hdldig : ∀ c ∈ s.dropLast, isDigitChar c = true :=
    fun c hc => h c ((List.dropLast_sublist s).subset hc)
  constructor
  · simp only [GTIN.init, initCore, hstrip, hrev]
    rw [← hdl]
    have harith : (((s.length : Int) + 0)).natAbs = s.length := by omega
    simp [initFinish, harith, ← hlaval]
  · show List.replicate _ '0' ++ _ = s
    have hpad := pad_natToChars hdlne hdldig
    set ntc := natToChars (natOfDigits s.dropLast) with hntc
    have hlen2 : ntc.length ≤ s.dropLast.length := natToChars_length_le hdlne hdldig
    have hdll : s.dropLast.length = s.length - 1 := by
      rw [hdl, hs]
      simp
    have harith : s.length - (ntc ++ [digitChar (checkDigitNat (natOfDigits s.dropLast))]).length =
        s.dropLast.length - ntc.length := by
      simp only [List.length_append, List.length_cons, List.length_nil]
      omega
    rw [harith, show List.replicate (s.dropLast.length - ntc.length) '0' ++
        (ntc ++ [digitChar (checkDigitNat (natOfDigits s.dropLast))]) =
        (List.replicate (s.dropLast.length - ntc.length) '0' ++ ntc) ++
          [digitChar (checkDigitNat (natOfDigits s.dropLast))] by simp,
      hpad, ← hlaval, hdl]
    exact hs.symm

/-- Witness for C4 at the valid 8-digit code 01234565. -/
theorem claim_C4_witness :
    GTIN.init (some (.s "01234565".toList)) none none none none none none =
      .ok ⟨some 123456, 8⟩ ∧
    render ⟨some 123456, 8⟩ = "01234565".toList := by
  have := claim_C4 "01234565".toList (by decide) (by decide) (by decide)
  exact this

theorem pad14_length {x : List Char} (h : x.length ≤ 14) : (pad14 x).length = 14 := by
  unfold pad14
  by_cases h14 : x.length < 14
  · rw [if_pos h14]
    simp
    omega
  · rw [if_neg h14]
    omega

theorem lookupRev_drop (t : List Char → Option Nat) :
    ∀ (n : Nat) (r : List Char), (∀ j, j < n → t ((r.drop j).reverse) = none) →
      lookupRev t r = lookupRev t (r.drop n) := by
  intro n
  induction n with
  | zero => intro r _; simp
  | succ n ih =>
    intro r h
    cases r with
    | nil => simp
    | cons c rest =>
      have h0 : t ((c :: rest).reverse) = none := by simpa using h 0 (Nat.succ_pos n)
      rw [lookupRev, h0, List.drop_succ_cons]
      exact ih rest (fun j hj => by simpa using h (j + 1) (by omega))

/-- One unfolding of the lookup loop in source order: try the whole string,
else recurse on the string without its last character. -/
theorem lookupGcpLength_pos (t : List Char → Option Nat) {p : List Char} (hp : p ≠ []) :
    lookupGcpLength t p =
      (match t p with | some l => some l | none => lookupGcpLength t p.dropLast) := by
  obtain ⟨c, rest, hr⟩ : ∃ c rest, p.reverse = c :: rest := by
    cases hrv : p.reverse with
    | nil => exact absurd (by simpa using congrArg List.reverse hrv) hp
    | cons c rest => exact ⟨c, rest, rfl⟩
  have hpe : p = rest.reverse ++ [c] := by
    have := congrArg List.reverse hr
    simpa using this
  have h1 : (c :: rest).reverse = p := by rw [← hr, List.reverse_reverse]
  have h2 : p.dropLast = rest.reverse := by rw [hpe, List.dropLast_concat]
  unfold lookupGcpLength
  rw [hr, lookupRev, h1, h2, List.reverse_reverse]

/-- Whenever the longest-match loop resolves the candidate region to a
table entry of GCP length zero, `get_gcp` raises `GCPNotFoundError` — the
`if l:` test treats a resolved zero exactly like no match. -/
theorem get_gcp_zero_length_raises (t : List Char → Option Nat) (st : GTINState)
    (h : lookupGcpLength t (prefixRegion (pad14 (render st))) = some 0) :
    get_gcp t st = .error .gcpNotFoundError := by
  simp only [get_gcp]
  rw [h]
  rfl

/-- Claim C2, evaluated at the failing input: `GTIN("02345678901289")`
constructs fine, and under a table resolving its region's longest match
("234", a restricted-circulation range) to length 0, `gcp` raises
`GCPNotFoundError` where the claim — and the repository's own test suite —
demand the empty string. -/
theorem claim_C2 :
    GTIN.init (some (.s "02345678901289".toList)) none none none none none none =
      .ok ⟨some 234567890128, 14⟩ ∧
    lookupGcpLength (fun q => if q = "234".toList then some 0 else none)
      (prefixRegion (pad14 (render ⟨some 234567890128, 14⟩))) = some 0 ∧
    get_gcp (fun q => if q = "234".toList then some 0 else none) ⟨some 234567890128, 14⟩ =
      .error .gcpNotFoundError :=
  ⟨by decide, by decide, get_gcp_zero_length_raises _ _ (by decide)⟩

/-- Claim C3: longest-prefix match — against any table mapping "081" to 9
and containing no longer key matching a code whose candidate region starts
"0810000", `get_gcp` falls back character by character to the "081" entry
and returns the nine characters after the indicator digit. -/
theorem claim_C3 (t : List Char → Option Nat) (st : GTINState)
    (hlen : (render st).length ≤ 14)
    (hstart : (prefixRegion (pad14 (render st))).take 7 = "0810000".toList)
    (h081 : t "081".toList = some 9)
    (hnone : ∀ k, 3 < k → k ≤ (prefixRegion (pad14 (render st))).length →
      t ((prefixRegion (pad14 (render st))).take k) = none) :
    get_gcp t st = .ok (((pad14 (render st)).drop 1).take 9) := by
  have hg : (pad14 (render st)).length = 14 := pad14_length hlen
  have hp : (prefixRegion (pad14 (render st))).length = 12 := by
    simp [prefixRegion, List.length_dropLast, List.length_drop, hg]
  set p := prefixRegion (pad14 (render st)) with hpdef
  have hcands : ∀ j, j < 9 → t ((p.reverse.drop j).reverse) = none := by
    intro j hj
    rw [List.drop_reverse, List.reverse_reverse]
    exact hnone (p.length - j) (by omega) (by omega)
  have htake3 : p.take 3 = "081".toList := by
    have h1 : p.take 3 = (p.take 7).take 3 := by
      rw [List.take_take]
      norm_num
    rw [h1, hstart]
    decide
  have hlook3 : lookupGcpLength t (p.take 3) = some 9 := by
    rw [htake3, lookupGcpLength_pos t (by decide), h081]
  have hloop : lookupGcpLength t p = some 9 := by
    unfold lookupGcpLength
    rw [lookupRev_drop t 9 p.reverse hcands, List.drop_reverse, hp,
      show (12 : Nat) - 9 = 3 from rfl]
    exact hlook3
  simp only [get_gcp, ← hpdef]
  rw [hloop]
  rfl

/-- Witness for C3 at the valid code 00810000000005 against a table holding
only "081" mapped to 9: the resolved GCP is 081000000. -/
theorem claim_C3_witness :
    GTIN.init (some (.s "00810000000005".toList)) none none none none none none =
      .ok ⟨some 81000000000, 14⟩ ∧
    get_gcp (fun q => if q = "081".toList then some 9 else none) ⟨some 81000000000, 14⟩ =
      .ok "081000000".toList := by
  constructor
  · decide
  · have hnone : ∀ k, 3 < k →
        k ≤ (prefixRegion (pad14 (render ⟨some 81000000000, 14⟩))).length →
        (fun q => if q = "081".toList then some 9 else none)
          ((prefixRegion (pad14 (render ⟨some 81000000000, 14⟩))).take k) = none := by
      intro k h1 h2
      have hplen : (prefixRegion (pad14 (render ⟨some 81000000000, 14⟩))).length = 12 := by decide
      have hlen : ((prefixRegion (pad14 (render ⟨some 81000000000, 14⟩))).take k).length = k := by
        rw [List.length_take]
        omega
      simp only []
      rw [if_neg]
      intro heq
      have hlen3 := congrArg List.length heq
      rw [hlen] at hlen3
      have : ("081".toList).length = 3 := by decide
      omega
    have h := claim_C3 (fun q => if q = "081".toList then some 9 else none)
      ⟨some 81000000000, 14⟩ (by decide) (by decide) (by decide) hnone
    exact h.trans (by decide)

/-- Claim C5, counterexample: supplying the mathematically correct check
digit as an integer raises anyway — `GTIN(raw="10101", check_digit=1)`
fails with `CheckDigitError` although the correct digit is 1, because the
comparison is `int != str`. -/
theorem claim_C5_counterexample :
    digitChar (checkDigitNat 10101) = '1' ∧
    GTIN.init none none (some (.s "10101".toList)) none none none (some (.i 1)) =
      .error (.checkDigitError none (.i 1) '1') := ⟨by decide, by decide⟩

/-- Claim C5 as amended: a supplied check digit is compared against the
recomputed one with Python `!=`; construction succeeds exactly when the
supplied value is the one-character string of the computed digit, and
otherwise fails with a `CheckDigitError` naming the supplied and the
correct digit — so a check digit supplied as an integer never matches and
always raises, even when numerically correct. -/
theorem claim_C5_amended (s : List Char) (hne : s ≠ []) (h : ∀ c ∈ s, isDigitChar c = true)
    (cd : Py) :
    GTIN.init none none (some (.s s)) none none none (some cd) =
      (if cd = .s [digitChar (checkDigitNat (natOfDigits s))] then
        .ok ⟨some (natOfDigits s), s.length + 1⟩
      else .error (.checkDigitError none cd (digitChar (checkDigitNat (natOfDigits s))))) ∧
    ∀ n : Int, Py.i n ≠ .s [digitChar (checkDigitNat (natOfDigits s))] := by
  have hstrip : stripNonDigits s = s := List.filter_eq_self.mpr h
  constructor
  · cases s with
    | nil => exact absurd rfl hne
    | cons c r =>
      simp only [GTIN.init, initCore, hstrip]
      by_cases hcd : cd = .s [digitChar (checkDigitNat (natOfDigits (c :: r)))]
      · rw [if_pos hcd]
        simp [initFinish, hcd]
        omega
      · rw [if_neg hcd]
        simp [initFinish, hcd]
  · intro n
    simp

/-- Witness for C5: with raw 10101 the correct digit is 1; as the string
"1" construction succeeds, as the integer 1 it raises `CheckDigitError`. -/
theorem claim_C5_witness :
    GTIN.init none none (some (.s "10101".toList)) none none none (some (.i 1)) =
      .error (.checkDigitError none (.i 1) '1') ∧
    GTIN.init none none (some (.s "10101".toList)) none none none (some (.s ['1'])) =
      .ok ⟨some 10101, 6⟩ := by
  constructor
  · exact ((claim_C5_amended "10101".toList (by decide) (by decide) (.i 1)).1).trans (by decide)
  · exact ((claim_C5_amended "10101".toList (by decide) (by decide) (.s ['1'])).1).trans (by decide)

/-- Claim C6, counterexample: an 8-digit GTIN and the 14-digit zero-padded
GTIN of the same numeric value render differently and have different
lengths, yet hash identically — the hash is `raw or 0` and ignores the
length, contradicting the claim that they hash differently. -/
theorem claim_C6_counterexample :
    GTIN.init (some (.s "01234565".toList)) none none none none none none =
      .ok ⟨some 123456, 8⟩ ∧
    GTIN.init (some (.s "00000001234565".toList)) none none none none none none =
      .ok ⟨some 123456, 14⟩ ∧
    gtinHash ⟨some 123456, 8⟩ = gtinHash ⟨some 123456, 14⟩ ∧
    render ⟨some 123456, 8⟩ ≠ render ⟨some 123456, 14⟩ ∧
    gtinLen ⟨some 123456, 8⟩ ≠ gtinLen ⟨some 123456, 14⟩ := by decide

/-- Claim C6 as amended: the hash is derived from the raw numeric value
alone (`self.raw or 0`) and is therefore independent of the length, so two
GTINs with the same numeric value but different lengths — which render
differently — collide; the class defines no equality override at all, so
equality of rendered strings is not what equality tests. -/
theorem claim_C6_amended :
    (∀ st st' : GTINState, st.raw = st'.raw → gtinHash st = gtinHash st') ∧
    gtinHash ⟨some 123456, 8⟩ = gtinHash ⟨some 123456, 14⟩ ∧
    render ⟨some 123456, 8⟩ ≠ render ⟨some 123456, 14⟩ := by
  refine ⟨?_, by decide, by decide⟩
  intro st st' hr
  unfold gtinHash
  rw [hr]

/-- Witness for C6: the hash-independence part applied at two states with
equal raw values and different lengths. -/
theorem claim_C6_witness : gtinHash ⟨some 5, 8⟩ = gtinHash ⟨some 5, 14⟩ :=
  claim_C6_amended.1 ⟨some 5, 8⟩ ⟨some 5, 14⟩ rfl

/-- Claim C7, counterexample: supplying a full `gtin` and a `raw` code at
once is not an error — construction succeeds, silently ignoring `raw`. -/
theorem claim_C7_counterexample :
    GTIN.init (some (.s "00000000000000".toList)) none (some (.s "123".toList))
      none none none none = .ok ⟨some 0, 14⟩ := by decide

/-- Claim C7 as amended: the three input modes are prioritised rather than
mutually exclusive — a present `gtin` makes the constructor ignore `raw`
and the components entirely, and a present `raw` makes it ignore the
components (the `check_digit` argument excepted: it participates in
validation in every mode); no exclusivity error exists. -/
theorem claim_C7_amended :
    (∀ (g : Py) (L : Option Int) (r i gc ir cd : Option Py),
      GTIN.init (some g) L r i gc ir cd = GTIN.init (some g) L none none none none cd) ∧
    (∀ (L : Option Int) (r : Py) (i gc ir cd : Option Py),
      GTIN.init none L (some r) i gc ir cd = GTIN.init none L (some r) none none none cd) ∧
    GTIN.init (some (.s "00000000000000".toList)) none (some (.s "123".toList))
      none none none none = .ok ⟨some 0, 14⟩ := by
  refine ⟨?_, ?_, by decide⟩
  · intro g L r i gc ir cd
    cases g <;> rfl
  · intro L r i gc ir cd
    cases r <;> rfl

theorem natToChars_ne_nil (n : Nat) : natToChars n ≠ [] := by
  rcases eq_or_ne n 0 with rfl | h
  · simp [natToChars]
  · rw [natToChars_eq_digits h]
    simp [Nat.digits_ne_nil_iff_ne_zero.mpr h]

theorem natToChars_mul_add {r d : Nat} (hr : r ≠ 0) (hd : d < 10) :
    natToChars (10 * r + d) = natToChars r ++ [digitChar d] := by
  have hn : 10 * r + d ≠ 0 := by omega
  have h1 : (10 * r + d) % 10 = d := by omega
  have h2 : (10 * r + d) / 10 = r := by omega
  rw [natToChars_eq_digits hn, Nat.digits_def' (b := 10) (by norm_num) (by omega), h1, h2]
  simp [natToChars_eq_digits hr]

/-- Claim C8, counterexample: for a 12-digit GTIN `x`, `GTIN(gtin=x)` does
not reuse `x`'s rendered string and length — `x` goes through the numeric
branch via `__int__`, the length is not copied and defaults to 14, so both
the rendering and the length differ. -/
theorem claim_C8_counterexample :
    GTIN.init none (some 12) (some (.i 7447010150)) none none none none =
      .ok ⟨some 7447010150, 12⟩ ∧
    GTIN.initFromGTIN ⟨some 7447010150, 12⟩ none = .ok ⟨some 7447010150, 14⟩ ∧
    render ⟨some 7447010150, 14⟩ ≠ render ⟨some 7447010150, 12⟩ ∧
    gtinLen ⟨some 7447010150, 14⟩ ≠ gtinLen ⟨some 7447010150, 12⟩ := by decide

/-- Claim C8 as amended: constructing from an existing GTIN goes through the
numeric branch on `int(x)`; the raw value is recovered but the length is
not reused — it defaults to 14 — so the construction reproduces the
original state exactly when the original's length is 14 (and its raw value
is positive, since the numeric branch re-splits the digit string). -/
theorem claim_C8_amended (r : Nat) (hr : 1 ≤ r) :
    GTIN.initFromGTIN ⟨some r, 14⟩ none = .ok ⟨some r, 14⟩ := by
  have hcd : checkDigitNat r < 10 := by
    unfold checkDigitNat
    exact Nat.mod_lt _ (by norm_num)
  have hint : intOfGTIN ⟨some r, 14⟩ = 10 * r + checkDigitNat r := by
    show natOfDigits (List.replicate _ '0' ++ (natToChars r ++ [digitChar (checkDigitNat r)])) = _
    rw [natOfDigits_zeros_append, natOfDigits_append, natOfDigits_natToChars, natOfDigits_cons]
    show r * 10 ^ 1 + (charVal (digitChar (checkDigitNat r)) * 10 ^ 0 + natOfDigits []) = _
    rw [charVal_digitChar hcd]
    show r * 10 + (checkDigitNat r * 1 + 0) = _
    ring
  unfold GTIN.initFromGTIN
  rw [hint]
  simp only [GTIN.init, initCore, Int.natAbs_ofNat]
  rw [natToChars_mul_add (by omega) hcd]
  obtain ⟨c2, front, hcf⟩ : ∃ c2 front, (natToChars r).reverse = c2 :: front := by
    cases hh : (natToChars r).reverse with
    | nil => exact absurd (by simpa using congrArg List.reverse hh) (natToChars_ne_nil r)
    | cons a t => exact ⟨a, t, rfl⟩
  have hrev : (natToChars r ++ [digitChar (checkDigitNat r)]).reverse =
      digitChar (checkDigitNat r) :: c2 :: front := by
    rw [List.reverse_append]
    simp [hcf]
  rw [hrev]
  have hback : (c2 :: front).reverse = natToChars r := by
    rw [← hcf, List.reverse_reverse]
  simp only [hback, natOfDigits_natToChars, initFinish]
  simp

/-- Witness for C8 at raw value 1: `GTIN(gtin=GTIN(raw=1))` reproduces the
14-digit state. -/
theorem claim_C8_witness : GTIN.initFromGTIN ⟨some 1, 14⟩ none = .ok ⟨some 1, 14⟩ :=
  claim_C8_amended 1 (by decide)

/-- Claim C9, counterexample: a 12-digit GTIN whose rendering starts with a
nonzero digit — `indicator_digit` returns that digit, not the fixed
default '0' the claim asserts for lengths below 14. -/
theorem claim_C9_counterexample :
    GTIN.init none none (some (.s "74470101505".toList)) none none none none =
      .ok ⟨some 74470101505, 12⟩ ∧
    gtinLen ⟨some 74470101505, 12⟩ < 14 ∧
    indicator_digit ⟨some 74470101505, 12⟩ = some '7' := by decide

/-- Claim C9 as amended: `indicator_digit` returns the first character of
the rendering at the GTIN's own length (`str(self)[0]`); for length 14 this
coincides with the 14-digit padded form's first character, and for a
shorter length it is '0' only when the rendering actually begins with
padding — a shorter GTIN whose digits fill its length keeps its own
leading digit. -/
theorem claim_C9_amended :
    (∀ r : Nat, indicator_digit ⟨some r, 14⟩ = (pad14 (render ⟨some r, 14⟩)).head?) ∧
    (∀ r len : Nat, (natToChars r).length + 1 < len → indicator_digit ⟨some r, len⟩ = some '0') := by
  constructor
  · intro r
    unfold indicator_digit pad14
    have hlen : ¬ (render ⟨some r, 14⟩).length < 14 := by
      show ¬ (List.replicate _ '0' ++ (natToChars r ++ [digitChar (checkDigitNat r)])).length < 14
      simp only [List.length_append, List.length_replicate, List.length_cons, List.length_nil]
      omega
    rw [if_neg hlen]
  · intro r len h
    unfold indicator_digit
    show (List.replicate (len - (natToChars r ++ [digitChar (checkDigitNat r)]).length) '0' ++
      (natToChars r ++ [digitChar (checkDigitNat r)])).head? = some '0'
    have hk : 0 < len - (natToChars r ++ [digitChar (checkDigitNat r)]).length := by
      simp only [List.length_append, List.length_cons, List.length_nil]
      omega
    obtain ⟨k, hk'⟩ : ∃ k, len - (natToChars r ++ [digitChar (checkDigitNat r)]).length = k + 1 :=
      ⟨_, (Nat.succ_pred_eq_of_pos hk).symm⟩
    rw [hk', List.replicate_succ]
    simp

/-- Witness for C9: a raw value of 5 in an 8-digit GTIN pads, so the
indicator digit is '0'; at length 14 the accessor agrees with the padded
form's first character. -/
theorem claim_C9_witness :
    indicator_digit ⟨some 5, 8⟩ = some '0' ∧
    indicator_digit ⟨some 123456789012, 14⟩ =
      (pad14 (render ⟨some 123456789012, 14⟩)).head? :=
  ⟨claim_C9_amended.2 5 8 (by decide), claim_C9_amended.1 123456789012⟩

/-- Claim C10, counterexample: not every such construction dies with a
built-in `TypeError` — an indicator digit that normalises to more than one
character raises `IndicatorDigitError` (a `GTINError` subclass) first. -/
theorem claim_C10_counterexample :
    GTIN.init none none none (some (.s ['1', '2', '3'])) none none none =
      .error .indicatorDigitError ∧
    PyError.isGTINError .indicatorDigitError = true := by decide

/-- Claim C10 as amended: when both `gcp` and `item_reference` are omitted
but a check digit — or an indicator digit that survives normalisation (at
most one character, no conflicting explicit length) — is supplied, the
constructor reaches `'0' * (12 - len(None))` and aborts with a built-in
`TypeError`, which is not a `GTINError` subclass. -/
theorem claim_C10_amended :
    (∀ cd : Py, GTIN.init none none none none none none (some cd) =
      .error .builtinTypeError) ∧
    (∀ (i : Py) (cd : Option Py), (normComponent i).length ≤ 1 →
      GTIN.init none none none (some i) none none cd = .error .builtinTypeError) ∧
    PyError.isGTINError .builtinTypeError = false := by
  refine ⟨?_, ?_, rfl⟩
  · intro cd
    rfl
  · intro i cd h
    cases cd with
    | none =>
      simp only [GTIN.init, initCore, componentInit]
      rw [if_neg (by omega)]
      rfl
    | some c =>
      simp only [GTIN.init, initCore, componentInit]
      rw [if_neg (by omega)]
      rfl

/-- Witness for C10 at the claim's two examples: `GTIN(indicator_digit='1')`
and `GTIN(check_digit='5')` both die with the built-in `TypeError`. -/
theorem claim_C10_witness :
    GTIN.init none none none (some (.s ['1'])) none none none = .error .builtinTypeError ∧
    GTIN.init none none none none none none (some (.s ['5'])) = .error .builtinTypeError :=
  ⟨claim_C10_amended.2.1 (.s ['1']) none (by decide), claim_C10_amended.1 (.s ['5'])⟩

/-- Docstring scenario: `str(GTIN(raw='0123456789012')) == '01234567890128'`. -/
theorem doctest_raw_str :
    GTIN.init none none (some (.s "0123456789012".toList)) none none none none =
      .ok ⟨some 123456789012, 14⟩ ∧
    render ⟨some 123456789012, 14⟩ = "01234567890128".toList := by decide

/-- Docstring scenario: `str(GTIN('04000101613600')) == '04000101613600'`. -/
theorem doctest_full_gtin :
    GTIN.init (some (.s "04000101613600".toList)) none none none none none none =
      .ok ⟨some 400010161360, 14⟩ ∧
    render ⟨some 400010161360, 14⟩ = "04000101613600".toList := by decide

/-- Docstring scenario: `str(GTIN(raw=7447010150, length=12)) == '074470101505'`. -/
theorem doctest_raw_int_length :
    GTIN.init none (some 12) (some (.i 7447010150)) none none none none =
      .ok ⟨some 7447010150, 12⟩ ∧
    render ⟨some 7447010150, 12⟩ = "074470101505".toList := by decide
